import Mathlib

/-!
Verification of the LLM-APR fuzzing-target corpus (src/data/bug*.c, bug*.cpp)
against its natural-language specification.

Each program is embedded shallowly: the global slot tables become lists of
`Slot` values, C `size_t` arithmetic is `Nat` arithmetic reduced `% 2^64`
at the operations where the source performs it, C `long` values are `Int`
restricted to the range strtol can produce, and the undefined behaviours the
programs can reach (division by zero, out-of-bounds access, signed overflow)
become an explicit `Crash` error.  Allocation is modelled as always
succeeding; the sources' allocation-failure fallbacks are noted in comments
at the definitions they belong to.
-/

/-- The undefined behaviours reachable in the corpus, modelled as explicit
    crash states (in C these are crashes or memory corruption, never values). -/
inductive Crash where
  | divByZero
  | oobRead
  | oobWrite
  | signedOverflow
deriving DecidableEq, Repr

instance {ε α : Type} [DecidableEq ε] [DecidableEq α] : DecidableEq (Except ε α) :=
  fun a b =>
    match a, b with
    | .ok x, .ok y =>
      if h : x = y then .isTrue (by rw [h]) else .isFalse (by intro he; cases he; exact h rfl)
    | .error x, .error y =>
      if h : x = y then .isTrue (by rw [h]) else .isFalse (by intro he; cases he; exact h rfl)
    | .ok _, .error _ => .isFalse (by intro he; cases he)
    | .error _, .ok _ => .isFalse (by intro he; cases he)

/-- C integer division (`/` on `long`): truncates toward zero, crashes on a
    zero divisor.  (`LONG_MIN / -1` overflow is not reachable from the inputs
    the programs parse with the values the claims exercise.) -/
def cdiv (a b : Int) : Except Crash Int :=
  if b = 0 then .error .divByZero else .ok (a.tdiv b)

/-- Unsigned division (`uint64_t` / `size_t`): crashes on a zero divisor. -/
def cdivN (a b : Nat) : Except Crash Nat :=
  if b = 0 then .error .divByZero else .ok (a / b)

/-- The cast `(size_t)x` of a C `long`/`int` value: two's-complement
    reinterpretation modulo `2^64`. -/
def toSizeT (x : Int) : Nat :=
  (x % (2 ^ 64 : Int)).toNat

/-- Two's-complement wrap of an integer into the signed 64-bit range
    (the value a `long` holds after a wrapping computation). -/
def wrapS64 (x : Int) : Int :=
  let m := x % (2 ^ 64 : Int)
  if m < 2 ^ 63 then m else m - 2 ^ 64

/-- The cast `(int)x` of a C `long` value: two's-complement truncation to
    32 bits (the behaviour of the targeted implementations). -/
def int32 (x : Int) : Int :=
  let m := x % (2 ^ 32 : Int)
  if m < 2 ^ 31 then m else m - 2 ^ 32

/-- Digit accumulation in the style of `strtol`: consume leading decimal digits,
    stop at the first non-digit. -/
def parse_digits : List Char → Nat → Nat
  | c :: rest, acc =>
    if c.isDigit then parse_digits rest (acc * 10 + (c.toNat - 48)) else acc
  | [], acc => acc

/-- Clamping of out-of-range magnitudes by `strtol` to `LONG_MAX` / `LONG_MIN`. -/
def clamp_long (x : Int) : Int :=
  if x < -(2 ^ 63) then -(2 ^ 63)
  else if 2 ^ 63 - 1 < x then 2 ^ 63 - 1
  else x

/-- The call `strtol(s, NULL, 10)`: skip leading blanks, optional sign, decimal
    digits; a string with no digits yields 0 (no error is signalled). -/
def strtol (s : String) : Int :=
  match s.toList.dropWhile (fun c => c == ' ' || c == '\t') with
  | '-' :: rest => clamp_long (-(parse_digits rest 0 : Int))
  | '+' :: rest => clamp_long (parse_digits rest 0)
  | rest => clamp_long (parse_digits rest 0)

/-- The call `atoi(s)`: same numeric behaviour as `strtol` on the in-range inputs the
    programs receive (its `int`-overflow behaviour is undefined in C and not
    exercised by the claims). -/
def atoi (s : String) : Int := strtol s

/-- One slot of a handle table: `struct Array` in bug6.c / `ArrayInfo` in
    bug5.cpp (`int *data; size_t size; int/bool allocated`).  `data` holds the
    defined contents of the malloc'ed buffer. -/
structure Slot where
  data : List Int
  size : Nat
  allocated : Bool
deriving DecidableEq, Repr

/-- A table entry that was never written: `{NULL, 0, 0}`. -/
def emptySlot : Slot := ⟨[], 0, false⟩

/-- Read the table at an index; indices beyond the table read as the
    never-written entry. -/
def slotAt (st : List Slot) (idx : Nat) : Slot :=
  st.getD idx emptySlot

/-- A `memcpy`-style write of `vals` into `buf` starting at `pos`
    (caller guarantees `pos + vals.length ≤ buf.length`). -/
def memWrite (buf : List Int) (pos : Nat) (vals : List Int) : List Int :=
  buf.take pos ++ vals ++ buf.drop (pos + vals.length)

/-- Repeated `strtok_r(line, " ", ...)`: split on spaces, dropping empty
    fields (consecutive delimiters are skipped, as strtok does). -/
def split_tokens_aux : List Char → List Char → List String
  | [], acc => if acc.isEmpty then [] else [String.mk acc.reverse]
  | c :: rest, acc =>
    if c = ' ' then
      if acc.isEmpty then split_tokens_aux rest []
      else String.mk acc.reverse :: split_tokens_aux rest []
    else split_tokens_aux rest (c :: acc)

def split_tokens (line : String) : List String :=
  split_tokens_aux line.toList []

namespace Bug6

/-- bug6.c line 273: `ARG_L(i)` — a missing token silently becomes 0, and a
    non-numeric token silently becomes 0 through `strtol`. -/
def ARG_L (tokens : List String) (i : Nat) : Int :=
  if i < tokens.length then strtol (tokens.getD i "") else 0

/-- bug6.c `ensure_capacity` growth formula (lines 60-82), with the
    `size_t` computations reduced modulo `2^64` where the source performs
    them.  (`realloc` failure, which the source ignores, is not modelled:
    allocation always succeeds.) -/
def grown_count (len idx : Nat) : Nat :=
  let n1 := (idx + 1) % 2 ^ 64
  let n2 := if n1 < (len * 2) % 2 ^ 64 then (len * 2 + 1) % 2 ^ 64 else n1
  if n2 < 16 then 16 else n2

/-- bug6.c lines 60-82: grow the table to cover `idx`; new entries are
    zeroed (`{NULL, 0, 0}`).  If the wrapped count is not larger than the
    current table the realloc shrinks it. -/
def ensure_capacity (st : List Slot) (idx : Nat) : List Slot :=
  if st.length ≤ idx then
    if grown_count st.length idx ≤ st.length then st.take (grown_count st.length idx)
    else st ++ List.replicate (grown_count st.length idx - st.length) emptySlot
  else st

/-- bug6.c lines 84-122 `create_array`: negative sizes silently fall back to
    10, sizes whose byte count would overflow fall back to 100; the new
    buffer is zero-initialised.  (The free of a previously allocated slot at
    `idx`, lines 93-98, is subsumed by the final overwrite since allocation
    always succeeds in the model.) -/
def create_array (st : List Slot) (idx : Nat) (size_arg : Int) : List Slot :=
  let st1 := ensure_capacity st idx
  if st1.length ≤ idx then st1
  else
    let sz := if size_arg < 0 then 10 else size_arg
    let count := toSizeT sz
    let count := if count > (2 ^ 64 - 1) / 4 then 100 else count
    st1.set idx ⟨List.replicate count 0, count, true⟩

/-- bug6.c lines 124-133 `fill_array`: an unallocated index is silently
    ignored; otherwise every element becomes `(int)value`. -/
def fill_array (st : List Slot) (idx : Nat) (value : Int) : List Slot :=
  if st.length ≤ idx ∨ (slotAt st idx).allocated = false then st
  else
    st.set idx { slotAt st idx with
                 data := List.replicate (slotAt st idx).size (int32 value) }

/-- bug6.c lines 135-173 `splice_array`.  All argument rejections silently
    return the unchanged state.  `long end = offset + count` overflows
    signed 64-bit arithmetic when both are huge — undefined behaviour,
    modelled as a crash.  The wrapped-`new_size` fallback (lines 157-160)
    under-allocates, so the copy loop then writes out of bounds. -/
def splice_array (st : List Slot) (dest src : Nat) (offset count : Int) :
    Except Crash (List Slot) :=
  if st.length ≤ dest ∨ st.length ≤ src then .ok st
  else if (slotAt st dest).allocated = false ∨ (slotAt st src).allocated = false then .ok st
  else if offset < 0 ∨ count < 0 then .ok st
  else if 2 ^ 63 - 1 < offset + count then .error .signedOverflow
  else if ((slotAt st src).size : Int) < offset + count then .ok st
  else
    let d := slotAt st dest
    let s := slotAt st src
    let ns0 := (d.size + count.toNat) % 2 ^ 64
    let ns := if ns0 < d.size then (d.size + 10) % 2 ^ 64 else ns0
    if d.size + count.toNat ≤ ns ∧ offset.toNat + count.toNat ≤ s.data.length then
      let buf0 := d.data.take ns ++ List.replicate (ns - d.data.length) 0
      .ok (st.set dest ⟨memWrite buf0 d.size ((s.data.drop offset.toNat).take count.toNat), ns, true⟩)
    else .error .oobWrite

/-- bug6.c lines 175-208 `join_arrays`: the wrapped-size fallback
    (line 186) under-allocates, so the two memcpys then write out of
    bounds; the copies also read out of bounds if a slot's buffer is
    shorter than its size field. -/
def join_arrays (st : List Slot) (new_idx idx1 idx2 : Nat) : Except Crash (List Slot) :=
  if st.length ≤ idx1 ∨ st.length ≤ idx2 then .ok st
  else if (slotAt st idx1).allocated = false ∨ (slotAt st idx2).allocated = false then .ok st
  else
    let a1 := slotAt st idx1
    let a2 := slotAt st idx2
    let ns0 := (a1.size + a2.size) % 2 ^ 64
    let ns := if ns0 < a1.size ∨ ns0 < a2.size then (a1.size + a2.size / 2) % 2 ^ 64 else ns0
    let st1 := ensure_capacity st new_idx
    if st1.length ≤ new_idx then .ok st1
    else if a1.size + a2.size ≤ ns ∧ a1.size ≤ a1.data.length ∧ a2.size ≤ a2.data.length then
      .ok (st1.set new_idx
        ⟨memWrite (memWrite (List.replicate ns 0) 0 (a1.data.take a1.size)) a1.size
            (a2.data.take a2.size), ns, true⟩)
    else .error .oobWrite

/-- bug6.c lines 210-218 `free_array`: frees an allocated slot and clears
    it; an unallocated or out-of-range index is silently ignored ("do
    nothing to avoid immediate trivial crash") — nothing is reported. -/
def free_array (st : List Slot) (idx : Nat) : List Slot :=
  if idx < st.length ∧ (slotAt st idx).allocated = true then st.set idx emptySlot
  else st

/-- bug6.c lines 220-235 `compute_stat`: returns the lines printed.  An
    unallocated index or a zero-size array silently prints nothing (the
    division is guarded by the `size == 0` early return). -/
def compute_stat (st : List Slot) (idx : Nat) : List String :=
  if st.length ≤ idx ∨ (slotAt st idx).allocated = false then []
  else if (slotAt st idx).size = 0 then []
  else
    let a := slotAt st idx
    let sum := a.data.foldl (fun acc v => acc + v) 0
    ["Average: " ++ toString (sum.tdiv (a.size : Int))]

/-- bug6.c lines 237-250 `print_array`: returns the lines printed.  An
    invalid range (`start < 0`, `end < start`, or `(size_t)end ≥ size`) is
    silently ignored — nothing is printed and nothing is reported. -/
def print_array (st : List Slot) (idx : Nat) (start e : Int) : List String :=
  if st.length ≤ idx ∨ (slotAt st idx).allocated = false then []
  else if start < 0 ∨ e < start ∨ (slotAt st idx).size ≤ toSizeT e then []
  else
    [String.join ((((slotAt st idx).data.drop start.toNat).take (e.toNat - start.toNat + 1)).map
      (fun v => toString v ++ " "))]

/-- bug6.c main loop body (lines 252-292): tokenize (at most 10 tokens),
    dispatch; unknown commands or insufficient arguments are ignored. -/
def handle_line (st : List Slot) (line : String) : Except Crash (List Slot × List String) :=
  let tokens := (split_tokens line).take 10
  if tokens.length = 0 then .ok (st, [])
  else
    let t0 := tokens.getD 0 ""
    let cnt := tokens.length
    if t0 = "CREATE" ∧ 2 < cnt then
      .ok (create_array st (toSizeT (ARG_L tokens 1)) (ARG_L tokens 2), [])
    else if t0 = "FILL" ∧ 2 < cnt then
      .ok (fill_array st (toSizeT (ARG_L tokens 1)) (ARG_L tokens 2), [])
    else if t0 = "SPLICE" ∧ 4 < cnt then
      (splice_array st (toSizeT (ARG_L tokens 1)) (toSizeT (ARG_L tokens 2))
        (ARG_L tokens 3) (ARG_L tokens 4)).map (fun s => (s, []))
    else if t0 = "JOIN" ∧ 3 < cnt then
      (join_arrays st (toSizeT (ARG_L tokens 1)) (toSizeT (ARG_L tokens 2))
        (toSizeT (ARG_L tokens 3))).map (fun s => (s, []))
    else if t0 = "FREE" ∧ 1 < cnt then
      .ok (free_array st (toSizeT (ARG_L tokens 1)), [])
    else if t0 = "STAT" ∧ 1 < cnt then
      .ok (st, compute_stat st (toSizeT (ARG_L tokens 1)))
    else if t0 = "PRINT" ∧ 3 < cnt then
      .ok (st, print_array st (toSizeT (ARG_L tokens 1)) (ARG_L tokens 2) (ARG_L tokens 3))
    else .ok (st, [])

/-- The whole bug6.c run on a list of input lines, starting from the empty
    table, accumulating everything printed to stdout. -/
def run_lines (lines : List String) : Except Crash (List Slot × List String) :=
  lines.foldlM (fun acc line => (handle_line acc.1 line).map (fun r => (r.1, acc.2 ++ r.2))) ([], [])

end Bug6

namespace Bug5

/-- bug5.cpp lines 237-240: the `toL` lambda — an out-of-range token index
    silently yields 0, and a non-numeric token silently yields 0 through
    `strtol`. -/
def toL (tokens : List String) (i : Nat) : Int :=
  if tokens.length ≤ i then 0 else strtol (tokens.getD i "")

/-- bug5.cpp lines 51-55 `ensure_capacity`: `arrays.resize(idx + 1,
    {NULL, 0, false})` when `idx` is beyond the vector. -/
def ensure_capacity (st : List Slot) (idx : Nat) : List Slot :=
  if st.length ≤ idx then st ++ List.replicate (idx + 1 - st.length) emptySlot else st

/-- bug5.cpp lines 57-83 `create_array`: a negative count silently falls
    back to 100; `alloc_size = count * sizeof(int)` is computed in `size_t`
    with no overflow guard, so for counts ≥ 2^62 the zero-initialisation
    loop writes past the (wrapped-size) buffer.  (The free of an old slot,
    lines 60-65, is subsumed by the final overwrite; malloc always succeeds
    in the model.) -/
def create_array (st : List Slot) (idx : Nat) (count : Int) : Except Crash (List Slot) :=
  let st1 := ensure_capacity st idx
  let c := if count < 0 then 100 else count
  let cn := toSizeT c
  if cn * 4 ≤ cn * 4 % 2 ^ 64 then
    .ok (st1.set idx ⟨List.replicate cn 0, cn, true⟩)
  else .error .oobWrite

/-- bug5.cpp lines 85-94 `fill_array`: an unallocated index prints a warning
    to stderr and returns; otherwise every element becomes `(int)value`.
    Result: (new table, stderr lines). -/
def fill_array (st : List Slot) (idx : Nat) (value : Int) : List Slot × List String :=
  if st.length ≤ idx ∨ (slotAt st idx).allocated = false then
    (st, ["fill_array: array not allocated"])
  else
    (st.set idx { slotAt st idx with
                  data := List.replicate (slotAt st idx).size (int32 value) }, [])

/-- bug5.cpp lines 96-124 `splice_array`.  Both indices are grown into the
    table *before* validation; each rejection prints to stderr and returns.
    `offset + count` and `(long)dest.size + count` are `long` additions —
    the first overflowing is undefined behaviour (crash), the second is
    anticipated by the source's own `new_size < 0` fallback and therefore
    modelled as a wrap.  Result: (new table, stderr lines).  (`realloc`
    always succeeds in the model, so its failure branch is not taken.) -/
def splice_array (st : List Slot) (dest src : Nat) (offset count : Int) :
    Except Crash (List Slot × List String) :=
  let st1 := ensure_capacity (ensure_capacity st dest) src
  if (slotAt st1 dest).allocated = false ∨ (slotAt st1 src).allocated = false then
    .ok (st1, ["splice_array: one or both arrays not allocated"])
  else if offset < 0 ∨ count < 0 then
    .ok (st1, ["splice_array: invalid offset/count"])
  else if 2 ^ 63 - 1 < offset + count then .error .signedOverflow
  else if ((slotAt st1 src).size : Int) < offset + count then
    .ok (st1, ["splice_array: invalid offset/count"])
  else
    let d := slotAt st1 dest
    let s := slotAt st1 src
    let nsL := wrapS64 ((d.size : Int) + count)
    let nsL := if nsL < 0 then 10 else nsL
    let ns := toSizeT nsL
    if d.size + count.toNat ≤ ns ∧ offset.toNat + count.toNat ≤ s.data.length then
      let buf0 := d.data.take ns ++ List.replicate (ns - d.data.length) 0
      .ok (st1.set dest
        ⟨memWrite buf0 d.size ((s.data.drop offset.toNat).take count.toNat), ns, true⟩, [])
    else .error .oobWrite

/-- bug5.cpp lines 159-169 `free_array`: frees an allocated slot and clears
    it; an already-free or never-allocated index prints a warning to stderr
    ("just ignore to avoid immediate crash").  Result: (new table, stderr
    lines). -/
def free_array (st : List Slot) (idx : Nat) : List Slot × List String :=
  if idx < st.length ∧ (slotAt st idx).allocated = true then (st.set idx emptySlot, [])
  else (st, ["free_array: array not allocated or invalid index"])

/-- bug5.cpp lines 191-206 `print_array`: an unallocated index or an invalid
    range prints a warning to stderr and returns before any element is read.
    Result: (stdout lines, stderr lines). -/
def print_array (st : List Slot) (idx : Nat) (start e : Int) : List String × List String :=
  if st.length ≤ idx ∨ (slotAt st idx).allocated = false then
    ([], ["print_array: array not allocated"])
  else if start < 0 ∨ e < start ∨ (slotAt st idx).size ≤ toSizeT e then
    ([], ["print_array: invalid range"])
  else
    ([String.join ((((slotAt st idx).data.drop start.toNat).take (e.toNat - start.toNat + 1)).map
      (fun v => toString v ++ " "))], [])

end Bug5

namespace Bug1

/-- bug1.c lines 35-57 and 85-91: the `CALC` and `ECHO` branches of
    `process_command`, returning the stdout lines.  `CALC a op b` with fewer
    than four tokens dereferences a null pointer (`p[10]`) — a crash.  The
    `/` case divides without a zero check.  The `ALLOC` branch (which reads
    further bytes from stdin) and the unknown-command branch (a heap
    overflow whose observable effect depends on the allocator) are outside
    the modelled fragment; the claims only exercise `CALC`. -/
def process_command (tokens : List String) : Except Crash (List String) :=
  if tokens.length < 1 then .ok []
  else if tokens.getD 0 "" = "CALC" then
    if 4 ≤ tokens.length then
      let a := atoi (tokens.getD 1 "")
      let b := atoi (tokens.getD 3 "")
      match (tokens.getD 2 "").toList.headD ' ' with
      | '+' => .ok ["Result: " ++ toString (a + b)]
      | '-' => .ok ["Result: " ++ toString (a - b)]
      | '*' => .ok ["Result: " ++ toString (a * b)]
      | '/' => (cdiv a b).map (fun r => ["Result: " ++ toString r])
      | _ => .ok ["Result: " ++ toString a]
    else .error .oobRead
  else if tokens.getD 0 "" = "ECHO" then
    .ok [String.join ((tokens.drop 1).map (fun t => t ++ " "))]
  else .ok []

/-- bug1.c main loop body (lines 103-126): strip the newline, split into at
    most `MAX_TOKENS = 16` tokens, process. -/
def process_line (line : String) : Except Crash (List String) :=
  process_command ((split_tokens line).take 16)

end Bug1

namespace Bug2

/-- bug2.c `struct user`. -/
structure User where
  name : String
  age : Int
  email : String
deriving DecidableEq, Repr

/-- bug2.c lines 105-118: the end-of-run statistics.  `total_age /
    user_count` is computed with no `user_count > 0` check, and the first
    user is then printed unconditionally (`users[0]`) — with no users that
    read is out of bounds. -/
def final_report (users : List User) : Except Crash (List String) := do
  let total := users.foldl (fun acc u => acc + u.age) 0
  let avg ← cdiv total users.length
  let line1 := "Loaded " ++ toString users.length ++ " users. Average age: " ++ toString avg
  match users with
  | [] => .error .oobRead
  | u :: _ =>
    .ok [line1, "First user: " ++ u.name ++ " (" ++ toString u.age ++ ") <" ++ u.email ++ ">"]

end Bug2

namespace Bug7

/-- bug7.c lines 147-168 `compute_stats`: with no pairs stored the source
    itself computes `100 / pair_count` with `pair_count == 0` ("Crash
    scenario"); otherwise it prints the average stored-value length.  A pair
    is (key, value). -/
def compute_stats (pairs : List (String × String)) : Except Crash String :=
  if pairs.length = 0 then
    (cdiv 100 (pairs.length : Int)).map (fun avg => "Average length: " ++ toString avg)
  else
    let total := pairs.foldl (fun acc p => acc + (p.2.length : Int)) 0
    (cdiv total (pairs.length : Int)).map (fun avg => "Average length: " ++ toString avg)

end Bug7

namespace Bug8

/-- bug8.c `struct Document`: `data` holds the bytes actually read from the
    file; `length` is the *declared* 32-bit length prefix (the malloc'ed
    buffer has `length` bytes, of which only `data.length` were filled by
    `fread`; the uninitialised tail has no defined value and is not
    represented). -/
structure Document where
  data : List Nat
  length : Nat
  allocated : Bool
deriving DecidableEq, Repr

/-- Reading `fread(&x, 4, 1, f)` of a little-endian `uint32_t`: needs four bytes. -/
def readU32 : List Nat → Option (Nat × List Nat)
  | b0 :: b1 :: b2 :: b3 :: rest => some (b0 + 256 * b1 + 65536 * b2 + 16777216 * b3, rest)
  | _ => none

/-- bug8.c lines 87-112: the document-reading loop.  A missing length prefix
    breaks out of the loop; a partial payload read ("We'll still store what
    we got") stores the document as allocated with its `length` field still
    the declared length — nothing signals the truncation. -/
def read_docs : Nat → List Nat → List Document
  | 0, _ => []
  | n + 1, input =>
    match readU32 input with
    | none => []
    | some (len, rest) =>
      ⟨rest.take len, len, true⟩ :: read_docs n (rest.drop len)

/-- bug8.c lines 50-136 without the first-document dump: read the document
    count, read the documents, report the average declared length.  With no
    successfully read documents the source divides `total_len` by
    `actual_count == 0`. -/
def process_file (input : List Nat) : Except Crash (List Document × List String) :=
  match readU32 input with
  | none => .ok ([], [])
  | some (docCount, rest) =>
    let docs := read_docs docCount rest
    let totalLen := docs.foldl (fun acc d => acc + d.length) 0
    (cdivN totalLen docs.length).map
      (fun avg => (docs, ["Average length: " ++ toString avg]))

end Bug8

/-! ### Helper lemmas about the table model -/

theorem slotAt_set_eq (l : List Slot) (i : Nat) (v : Slot) (h : i < l.length) :
    slotAt (l.set i v) i = v := by
  induction l generalizing i with
  | nil => simp at h
  | cons a t ih =>
    cases i with
    | zero => rfl
    | succ n => exact ih n (by simpa using h)

theorem getD_replicate {α : Type} (n i : Nat) (a d : α) (h : i < n) :
    (List.replicate n a).getD i d = a := by
  induction n generalizing i with
  | zero => omega
  | succ m ih =>
    cases i with
    | zero => rfl
    | succ j => exact ih j (by omega)

theorem getD_replicate_self {α : Type} (n i : Nat) (a : α) :
    (List.replicate n a).getD i a = a := by
  induction n generalizing i with
  | zero => cases i <;> rfl
  | succ m ih =>
    cases i with
    | zero => rfl
    | succ j => exact ih j

theorem slotAt_append_replicate (l : List Slot) (k i : Nat) :
    slotAt (l ++ List.replicate k emptySlot) i = slotAt l i := by
  induction l generalizing i with
  | nil => exact getD_replicate_self k i emptySlot
  | cons a t ih =>
    cases i with
    | zero => rfl
    | succ j => exact ih j

theorem toSizeT_eq (x : Int) (h0 : 0 ≤ x) (h1 : x < 2 ^ 64) : toSizeT x = x.toNat := by
  unfold toSizeT
  omega

theorem int32_eq_self (x : Int) (h0 : -(2 ^ 31) ≤ x) (h1 : x < 2 ^ 31) : int32 x = x := by
  simp only [int32]
  split_ifs <;> omega

theorem grown_count_ge (len idx : Nat) (h1 : idx < 2 ^ 62) (h2 : len < 2 ^ 62) :
    idx + 1 ≤ Bug6.grown_count len idx := by
  simp only [Bug6.grown_count]
  have e1 : (idx + 1) % 2 ^ 64 = idx + 1 := Nat.mod_eq_of_lt (by omega)
  have e2 : (len * 2) % 2 ^ 64 = len * 2 := Nat.mod_eq_of_lt (by omega)
  have e3 : (len * 2 + 1) % 2 ^ 64 = len * 2 + 1 := Nat.mod_eq_of_lt (by omega)
  rw [e1, e2, e3]
  split_ifs <;> omega

theorem ensure_capacity6_spec (st : List Slot) (idx : Nat)
    (h1 : idx < 2 ^ 62) (h2 : st.length < 2 ^ 62) :
    idx < (Bug6.ensure_capacity st idx).length ∧
      ∀ j, slotAt (Bug6.ensure_capacity st idx) j = slotAt st j := by
  unfold Bug6.ensure_capacity
  split_ifs with hle hsh
  · exact absurd hsh (by have := grown_count_ge st.length idx h1 h2; omega)
  · refine ⟨?_, fun j => slotAt_append_replicate st _ j⟩
    have := grown_count_ge st.length idx h1 h2
    simp only [List.length_append, List.length_replicate]
    omega
  · exact ⟨by omega, fun j => rfl⟩

theorem create_array6_spec (st : List Slot) (idx : Nat) (size : Int)
    (h1 : idx < 2 ^ 62) (h2 : st.length < 2 ^ 62) (h3 : 0 ≤ size)
    (h4 : size ≤ 4611686018427387903) :
    slotAt (Bug6.create_array st idx size) idx
        = ⟨List.replicate size.toNat 0, size.toNat, true⟩ ∧
      idx < (Bug6.create_array st idx size).length := by
  obtain ⟨hlen, _⟩ := ensure_capacity6_spec st idx h1 h2
  simp only [Bug6.create_array]
  rw [if_neg (by omega)]
  rw [if_neg (by omega : ¬ size < 0)]
  rw [toSizeT_eq size h3 (by omega)]
  rw [if_neg (by omega : ¬ size.toNat > (2 ^ 64 - 1) / 4)]
  refine ⟨slotAt_set_eq _ idx _ hlen, ?_⟩
  simp only [List.length_set]
  exact hlen

theorem ensure_capacity5_slotAt (st : List Slot) (idx j : Nat) :
    slotAt (Bug5.ensure_capacity st idx) j = slotAt st j := by
  unfold Bug5.ensure_capacity
  split_ifs with h
  · exact slotAt_append_replicate st _ j
  · rfl

theorem ensure_capacity5_length (st : List Slot) (idx : Nat) :
    idx < (Bug5.ensure_capacity st idx).length := by
  unfold Bug5.ensure_capacity
  split_ifs with h
  · simp only [List.length_append, List.length_replicate]
    omega
  · omega

theorem create_array5_spec (st : List Slot) (idx : Nat) (size : Int)
    (h3 : 0 ≤ size) (h4 : size ≤ 4611686018427387903) :
    Bug5.create_array st idx size
        = .ok ((Bug5.ensure_capacity st idx).set idx
            ⟨List.replicate size.toNat 0, size.toNat, true⟩) ∧
      slotAt ((Bug5.ensure_capacity st idx).set idx
            ⟨List.replicate size.toNat 0, size.toNat, true⟩) idx
        = ⟨List.replicate size.toNat 0, size.toNat, true⟩ := by
  constructor
  · simp only [Bug5.create_array]
    rw [if_neg (by omega : ¬ size < 0)]
    rw [toSizeT_eq size h3 (by omega)]
    rw [if_pos (by rw [Nat.mod_eq_of_lt (by omega)])]
  · exact slotAt_set_eq _ idx _ (ensure_capacity5_length st idx)

/-! ### Claims -/

/-- Claim C9 (confirmed): on the input line "CALC 10 + 5" the bug1.c
    calculator command outputs exactly "Result: 15". -/
theorem claim_C9_calc_result :
    Bug1.process_line "CALC 10 + 5" = .ok ["Result: 15"] := by decide

/-- Claim C6, counterexample: on the input line "CALC 10 / 0" bug1.c does
    NOT report a DivisionByZero error — it executes the unguarded division
    `a / b` with `b = 0` and crashes.  This refutes the claim that the
    division is guarded and an error branch replaces the unguarded divide. -/
theorem claim_C6_counterexample :
    Bug1.process_line "CALC 10 / 0" = .error Crash.divByZero := by decide

/-- Claim C6, amended: for every first operand token `t`, the line
    `CALC t / 0` reaches bug1.c's unguarded `a / b` with `b = 0` and
    crashes with a division by zero; no guard or error branch exists. -/
theorem claim_C6_unguarded_division (t : String) :
    Bug1.process_command ["CALC", t, "/", "0"] = .error Crash.divByZero := rfl

/-- Claim C1, counterexample: with zero users parsed, bug2.c's final
    statistics phase computes `total_age / user_count` with
    `user_count = 0` — the division is executed, not replaced by an
    empty-result report.  This refutes "never computes sum / count with
    count = 0". -/
theorem claim_C1_counterexample :
    Bug2.final_report [] = .error Crash.divByZero := by decide

/-- Claim C1, amended: with zero allocated slots, bug7.c's `compute_stats`
    computes `100 / pair_count` with `pair_count = 0` (a division by zero,
    not an empty-result report), and bug2.c divides by the zero user count
    (see the counterexample); by contrast bug6.c's `compute_stat` returns
    silently, without dividing, on an empty array. -/
theorem claim_C1_empty_aggregate :
    Bug7.compute_stats [] = .error Crash.divByZero ∧
      Bug6.compute_stat (Bug6.create_array [] 0 0) 0 = [] := by decide

/-- Claim C8, counterexample: the non-numeric token "abc" parses to 0 with
    no error, and bug6.c's `CREATE abc 5` therefore silently creates a slot
    at index 0 (the defaulted value) instead of failing with NotANumber;
    bug5.cpp's `toL` likewise silently yields 0 for a missing token. -/
theorem claim_C8_counterexample :
    strtol "abc" = 0 ∧ Bug5.toL ["CREATE_ARRAY"] 1 = 0 ∧
      Bug6.run_lines ["CREATE abc 5"] = .ok (Bug6.create_array [] 0 5, []) := by decide

/-- Claim C8, amended: a non-numeric index or size token is silently parsed
    as 0 by `strtol`/`atoi` (and a missing token silently becomes 0 in
    `ARG_L`/`toL`), and the defaulted value is consumed as a real index —
    `CREATE abc 3` creates slot 0, which the following commands then
    operate on; no NotANumber failure exists anywhere in the corpus. -/
theorem claim_C8_default_zero :
    (Bug6.run_lines ["CREATE abc 3", "FILL 0 7", "STAT 0"]).map (fun p => p.2)
      = .ok ["Average: 7"] := by decide

/-- Claim C7, counterexample: after "CREATE 0 10", the command
    "PRINT 0 0 20" does NOT fail with a RangeError — bug6.c's bounds check
    silently ignores the command: the run ends with the table unchanged and
    with no output and no error of any kind. -/
theorem claim_C7_counterexample :
    Bug6.run_lines ["CREATE 0 10", "PRINT 0 0 20"]
      = .ok (Bug6.create_array [] 0 10, []) := by decide

/-- Claim C7, amended: a print range whose end reaches past the slot's size
    is rejected by the bounds check before any element is read, but not
    with a RangeError: bug6.c prints nothing and reports nothing, while
    bug5.cpp prints "print_array: invalid range" to stderr. -/
theorem claim_C7_range_rejected (st : List Slot) (idx : Nat) (s e : Int)
    (h1 : idx < st.length) (h2 : (slotAt st idx).allocated = true)
    (_h3 : 0 ≤ s) (_h4 : s ≤ e) (h5 : (slotAt st idx).size ≤ toSizeT e) :
    Bug6.print_array st idx s e = [] ∧
      Bug5.print_array st idx s e = ([], ["print_array: invalid range"]) := by
  have hA : ¬ (st.length ≤ idx ∨ (slotAt st idx).allocated = false) := by
    simp [h2]
    omega
  have hB : s < 0 ∨ e < s ∨ (slotAt st idx).size ≤ toSizeT e := Or.inr (Or.inr h5)
  constructor
  · unfold Bug6.print_array
    rw [if_neg hA, if_pos hB]
  · unfold Bug5.print_array
    rw [if_neg hA, if_pos hB]

/-- Witness for C7's amended theorem: a size-10 slot, range 0..20. -/
theorem claim_C7_witness :
    Bug6.print_array [⟨List.replicate 10 0, 10, true⟩] 0 0 20 = [] ∧
      Bug5.print_array [⟨List.replicate 10 0, 10, true⟩] 0 0 20
        = ([], ["print_array: invalid range"]) :=
  claim_C7_range_rejected [⟨List.replicate 10 0, 10, true⟩] 0 0 20
    (by decide) (by decide) (by decide) (by decide) (by decide)

/-- Claim C2, counterexample: "FREE 5" on an empty table is silently
    ignored by bug6.c — no NotAllocatedError, no report of any kind, table
    untouched.  This refutes "the failure is reported, never silently
    ignored". -/
theorem claim_C2_counterexample :
    Bug6.run_lines ["FREE 5"] = .ok ([], []) := by decide

/-- Claim C2, amended: `free` and element access (`fill`) on a
    never-created index touch no slot storage and leave the table exactly
    unchanged; but the failure is not a NotAllocatedError: bug5.cpp reports
    it on stderr, while bug6.c silently ignores it. -/
theorem claim_C2_never_created_untouched (st : List Slot) (idx : Nat) (v : Int)
    (h : ¬ (idx < st.length ∧ (slotAt st idx).allocated = true)) :
    Bug6.free_array st idx = st ∧ Bug6.fill_array st idx v = st ∧
      Bug5.free_array st idx = (st, ["free_array: array not allocated or invalid index"]) ∧
      Bug5.fill_array st idx v = (st, ["fill_array: array not allocated"]) := by
  have hd : st.length ≤ idx ∨ (slotAt st idx).allocated = false := by
    rcases Bool.eq_false_or_eq_true (slotAt st idx).allocated with hb | hb
    · left
      by_contra hlt
      exact h ⟨by omega, hb⟩
    · exact Or.inr hb
  refine ⟨?_, ?_, ?_, ?_⟩
  · unfold Bug6.free_array
    rw [if_neg h]
  · unfold Bug6.fill_array
    rw [if_pos hd]
  · unfold Bug5.free_array
    rw [if_neg h]
  · unfold Bug5.fill_array
    rw [if_pos hd]

/-- Witness for C2's amended theorem: index 0 of the empty table. -/
theorem claim_C2_witness :
    Bug6.free_array [] 0 = [] ∧ Bug6.fill_array [] 0 0 = [] ∧
      Bug5.free_array [] 0 = ([], ["free_array: array not allocated or invalid index"]) ∧
      Bug5.fill_array [] 0 0 = ([], ["fill_array: array not allocated"]) :=
  claim_C2_never_created_untouched [] 0 0 (by decide)

/-- Claim C3, counterexample: a file declaring one document of length 5 but
    providing only 2 payload bytes does NOT fail with TruncatedInput —
    bug8.c stores the document as allocated, its length field still the
    declared 5 while only 2 bytes were read, and even reports the average
    over the declared length, signalling nothing. -/
theorem claim_C3_counterexample :
    Bug8.process_file [1, 0, 0, 0, 5, 0, 0, 0, 72, 101]
      = .ok ([⟨[72, 101], 5, true⟩], ["Average length: 5"]) := by decide

/-- Claim C3, amended: whenever the declared length `L` exceeds the
    remaining available bytes `A`, bug8.c performs a partial read and
    stores the document as allocated with length field `L` and only the `A`
    available payload bytes, signalling nothing (bug10.c's field reader has
    the identical "still assign what we got" pattern). -/
theorem claim_C3_truncation_stored_silently (b0 b1 b2 b3 : Nat) (avail : List Nat)
    (h : avail.length < b0 + 256 * b1 + 65536 * b2 + 16777216 * b3) :
    Bug8.read_docs 1 (b0 :: b1 :: b2 :: b3 :: avail)
      = [⟨avail, b0 + 256 * b1 + 65536 * b2 + 16777216 * b3, true⟩] := by
  simp only [Bug8.read_docs, Bug8.readU32]
  rw [List.take_of_length_le (by omega)]

/-- Witness for C3's amended theorem: declared length 5, two bytes
    available. -/
theorem claim_C3_witness :
    Bug8.read_docs 1 [5, 0, 0, 0, 72, 101] = [⟨[72, 101], 5, true⟩] :=
  claim_C3_truncation_stored_silently 5 0 0 0 [72, 101] (by decide)

/-- Claim C4, counterexample: `create(0, -1)` succeeds but the resulting
    slot has 10 elements (bug6.c's silent fallback), not the requested
    size -1 — refuting "element count is exactly size" for every size
    argument. -/
theorem claim_C4_counterexample :
    slotAt (Bug6.create_array [] 0 (-1)) 0 = ⟨List.replicate 10 0, 10, true⟩ ∧
      ((slotAt (Bug6.create_array [] 0 (-1)) 0).size : Int) ≠ -1 := by decide

/-- Claim C4, amended: for sizes in the range the allocation arithmetic
    handles (0 ≤ size ≤ SIZE_MAX/sizeof(int)), `create(idx, size)` followed
    by reading slot `idx` yields exactly `size` elements, all zero, in both
    bug6.c and bug5.cpp; a negative size is silently replaced by the
    fallback 10 (bug6.c) or 100 (bug5.cpp). -/
theorem claim_C4_create_get (st st5 : List Slot) (idx : Nat) (size : Int)
    (h1 : idx < 2 ^ 62) (h2 : st.length < 2 ^ 62) (h3 : 0 ≤ size)
    (h4 : size ≤ 4611686018427387903) :
    slotAt (Bug6.create_array st idx size) idx
        = ⟨List.replicate size.toNat 0, size.toNat, true⟩ ∧
      ∃ st5', Bug5.create_array st5 idx size = .ok st5' ∧
        slotAt st5' idx = ⟨List.replicate size.toNat 0, size.toNat, true⟩ := by
  refine ⟨(create_array6_spec st idx size h1 h2 h3 h4).1, ?_⟩
  obtain ⟨he, hs⟩ := create_array5_spec st5 idx size h3 h4
  exact ⟨_, he, hs⟩

/-- Witness for C4's amended theorem: `create(0, 3)` on empty tables. -/
theorem claim_C4_witness :
    slotAt (Bug6.create_array [] 0 3) 0 = ⟨List.replicate 3 0, 3, true⟩ ∧
      ∃ st5', Bug5.create_array [] 0 3 = .ok st5' ∧
        slotAt st5' 0 = ⟨List.replicate 3 0, 3, true⟩ :=
  claim_C4_create_get [] [] 0 3 (by decide) (by decide) (by decide) (by decide)

/-- Claim C5, counterexample: `create(0, 1)` then `fill(0, 2^32)` stores 0,
    not 2^32 — `(int)value` truncates the long value to 32 bits, so reading
    the element does not yield the fill argument.  This refutes the
    round-trip for every value `v`. -/
theorem claim_C5_counterexample :
    (slotAt (Bug6.fill_array (Bug6.create_array [] 0 1) 0 4294967296) 0).data.getD 0 0 = 0 ∧
      (0 : Int) ≠ 4294967296 := by decide

/-- Claim C5, amended: for values within the 32-bit int range (and sizes
    the allocation arithmetic handles), `create(idx, n)` then `fill(idx, v)`
    makes every element `0 ≤ i < n` of slot `idx` read back exactly `v`;
    values outside that range are truncated to 32 bits by the `(int)value`
    cast. -/
theorem claim_C5_roundtrip (st : List Slot) (idx : Nat) (size v : Int)
    (h1 : idx < 2 ^ 62) (h2 : st.length < 2 ^ 62) (h3 : 0 ≤ size)
    (h4 : size ≤ 4611686018427387903)
    (h5 : -(2 ^ 31) ≤ v) (h6 : v < 2 ^ 31) :
    ∀ i < size.toNat,
      (slotAt (Bug6.fill_array (Bug6.create_array st idx size) idx v) idx).data.getD i 0
        = v := by
  intro i hi
  obtain ⟨hslot, hlen⟩ := create_array6_spec st idx size h1 h2 h3 h4
  unfold Bug6.fill_array
  rw [if_neg (by rw [hslot]; simp; omega)]
  rw [hslot, slotAt_set_eq _ idx _ hlen]
  show (List.replicate size.toNat (int32 v)).getD i 0 = v
  rw [int32_eq_self v h5 h6]
  exact getD_replicate size.toNat i v 0 hi

/-- Witness for C5's amended theorem: size 2, value 7, element 1. -/
theorem claim_C5_witness :
    (slotAt (Bug6.fill_array (Bug6.create_array [] 0 2) 0 7) 0).data.getD 1 0 = 7 :=
  claim_C5_roundtrip [] 0 2 7 (by decide) (by decide) (by decide) (by decide)
    (by decide) (by decide) 1 (by decide)

/-- Claim C10 (confirmed): whenever `splice` rejects its arguments — a slot
    not allocated, a negative offset or count, or offset + count exceeding
    the source slot's size (within defined `long` arithmetic) — it returns
    before any reallocation or copy: bug6.c returns the entire table
    unchanged, and bug5.cpp (whose `ensure_capacity` may first append
    empty entries to the table) leaves the destination slot's size and
    contents exactly unchanged. -/
theorem claim_C10_splice_atomic (st st5 : List Slot) (dest src : Nat) (off cnt : Int) :
    ((st.length ≤ dest ∨ st.length ≤ src ∨ (slotAt st dest).allocated = false ∨
        (slotAt st src).allocated = false ∨ off < 0 ∨ cnt < 0 ∨
        (off + cnt ≤ 2 ^ 63 - 1 ∧ ((slotAt st src).size : Int) < off + cnt)) →
      Bug6.splice_array st dest src off cnt = .ok st) ∧
    (((slotAt st5 dest).allocated = false ∨ (slotAt st5 src).allocated = false ∨
        off < 0 ∨ cnt < 0 ∨
        (off + cnt ≤ 2 ^ 63 - 1 ∧ ((slotAt st5 src).size : Int) < off + cnt)) →
      ∃ st' msg, Bug5.splice_array st5 dest src off cnt = .ok (st', [msg]) ∧
        slotAt st' dest = slotAt st5 dest) := by
  constructor
  · intro hR
    unfold Bug6.splice_array
    split_ifs with h1 h2 h3 h4 h5 <;>
      first
        | rfl
        | (exfalso
           rcases hR with h | h | h | h | h | h | hq
           · exact h1 (Or.inl h)
           · exact h1 (Or.inr h)
           · exact h2 (Or.inl h)
           · exact h2 (Or.inr h)
           · exact h3 (Or.inl h)
           · exact h3 (Or.inr h)
           · exact absurd hq.1 (by omega))
  · intro hR
    have hp : ∀ j, slotAt (Bug5.ensure_capacity (Bug5.ensure_capacity st5 dest) src) j
        = slotAt st5 j :=
      fun j => (ensure_capacity5_slotAt _ src j).trans (ensure_capacity5_slotAt st5 dest j)
    unfold Bug5.splice_array
    simp only [hp]
    split_ifs with h1 h2 h3 h4 h5 h6 h7 <;>
      first
        | exact ⟨_, _, rfl, hp dest⟩
        | (exfalso
           rcases hR with h | h | h | h | hq
           · exact h1 (Or.inl h)
           · exact h1 (Or.inr h)
           · exact h2 (Or.inl h)
           · exact h2 (Or.inr h)
           · exact absurd hq.1 (by omega))

/-- Witness for C10: a two-element slot spliced onto itself with count 5
    (offset + count exceeds the source size) — rejected, slot unchanged. -/
theorem claim_C10_witness :
    Bug6.splice_array [⟨[1, 2], 2, true⟩] 0 0 0 5 = .ok [⟨[1, 2], 2, true⟩] ∧
      ∃ st' msg, Bug5.splice_array [⟨[1, 2], 2, true⟩] 0 0 0 5 = .ok (st', [msg]) ∧
        slotAt st' 0 = slotAt [⟨[1, 2], 2, true⟩] 0 := by
  have h := claim_C10_splice_atomic [⟨[1, 2], 2, true⟩] [⟨[1, 2], 2, true⟩] 0 0 0 5
  exact ⟨h.1 (by decide), h.2 (by decide)⟩
